import Mathlib

/-!
Verification of the MacroX presentation/orchestration layer (a Tauri + React
frontend).  The definitions below are a shallow embedding of the TypeScript
source: the data model of `src/types/macro.ts`, the duration estimator of
`playback-panel.tsx`, the session handlers and hotkey listeners of `App.tsx`,
and the debounced window-mode controller of `use-window-manager.ts`.

Modelling conventions:
  * TS numbers used as timestamps/speeds are embedded as `ℚ` (the UI only ever
    produces non-negative values; division by `speed` is exact rational
    division).  Wall-clock instants (`Date.now()`) are `ℕ` milliseconds passed
    in explicitly.
  * `invoke(...)` engine requests are recorded in an explicit `Request` list;
    the engine's answer is passed to each handler as an explicit
    `Bool`/`Except` outcome parameter.
  * `async` handlers that suspend at an `await` are split into a `Begin` step
    (everything up to and including issuing the request) and an `End` step
    (the `then`/`catch`/`finally` continuation), so that interleavings with
    other handlers are expressible.
  * user-visible notifications are recorded as `(Severity, message)` pairs.
-/

deriving instance DecidableEq for Except

namespace MacroX

/-! ## Data model — `src/types/macro.ts` -/

/-- Types of events that can be recorded (`EventType` in `types/macro.ts`). -/
inductive EventType
  | mouse_move
  | mouse_click
  | key_press
  | key_release
deriving DecidableEq

/-- Mouse button types (`MouseButton` in `types/macro.ts`). -/
inductive MouseButton
  | left
  | right
  | middle
deriving DecidableEq

/-- Individual macro event (`MacroEvent` in `types/macro.ts`).  The optional
TS fields are embedded as `Option`. -/
structure MacroEvent where
  type : EventType
  timestamp : ℚ
  x : Option ℚ := none
  y : Option ℚ := none
  button : Option MouseButton := none
  key : Option String := none
deriving DecidableEq

/-- Playback repeat modes (`RepeatMode` in `types/macro.ts`). -/
inductive RepeatMode
  | once
  | count
  | infinite
deriving DecidableEq

/-- Playback settings (`PlaybackSettings` in `types/macro.ts`).  `repeatCount`,
`interval` and `scheduledTime` are optional in TS. -/
structure PlaybackSettings where
  speed : ℚ
  repeatMode : RepeatMode
  repeatCount : Option ℕ := none
  interval : Option ℚ := none
  scheduledTime : Option ℕ := none
deriving DecidableEq

/-- Recording settings (`RecordingSettings` in `types/macro.ts`). -/
structure RecordingSettings where
  recordMouseMovement : Bool
  recordMouseClicks : Bool
  recordKeyboard : Bool
deriving DecidableEq

/-- Complete macro with metadata (`Macro` in `types/macro.ts`).  The optional
`description` is always set (to `""`) by the code paths modelled here, so it is
embedded as a plain `String`; `createdAt`/`updatedAt` are `Date.now()`
milliseconds. -/
structure Macro where
  id : String
  name : String
  description : String
  events : List MacroEvent
  recordingSettings : RecordingSettings
  playbackSettings : PlaybackSettings
  createdAt : ℕ
  updatedAt : ℕ
deriving DecidableEq

/-! ## Duration estimator — `playback-panel.tsx`, `totalDuration` -/

/-- JavaScript `n || 1` on an optional number: `undefined` and `0` are falsy
and yield `1` (used for `playbackSettings.repeatCount || 1`). -/
def jsOr1 : Option ℕ → ℕ
  | none => 1
  | some 0 => 1
  | some (n + 1) => n + 1

/-- The `totalDuration` memo of `playback-panel.tsx` (lines 61-75): `0` for an
empty sequence; otherwise the last event's timestamp divided by the speed,
and for `count` mode `adjusted * count + (count - 1) * delay` where `delay`
is the hard-coded constant `500` (the source reads `const delay = 500;` and
never consults `playbackSettings.interval`). -/
def totalDuration (events : List MacroEvent) (playbackSettings : PlaybackSettings) : ℚ :=
  match events.getLast? with
  | none => 0
  | some lastEvent =>
    let singleLoopDuration := lastEvent.timestamp
    let adjustedSingleDuration := singleLoopDuration / playbackSettings.speed
    if playbackSettings.repeatMode = RepeatMode.count then
      let count : ℚ := (jsOr1 playbackSettings.repeatCount : ℕ)
      let delay : ℚ := 500
      adjustedSingleDuration * count + (count - 1) * delay
    else
      adjustedSingleDuration

/-- The duration estimator as the specification words it (claim C2): identical
to `totalDuration` except that the inter-repetition delay is the settings'
`interval` field, defaulting to 500 ms when absent.  This definition follows
the claim's words only, for comparison against the source's `totalDuration`. -/
def totalDurationClaimed (events : List MacroEvent) (playbackSettings : PlaybackSettings) : ℚ :=
  match events.getLast? with
  | none => 0
  | some lastEvent =>
    let base := lastEvent.timestamp / playbackSettings.speed
    if playbackSettings.repeatMode = RepeatMode.count then
      let count : ℚ := (jsOr1 playbackSettings.repeatCount : ℕ)
      let delay : ℚ := (playbackSettings.interval).getD 500
      base * count + (count - 1) * delay
    else
      base

/-- A bare timestamped event with last timestamp 2000 ms, as in the claim's
concrete examples. -/
def ev2000 : MacroEvent :=
  { type := EventType.mouse_click, timestamp := 2000 }

/-! ## Session state and effects — `App.tsx` -/

/-- Notification severity, matching the literal union
`"success" | "error" | "info" | "warning"` of `handleNotify`. -/
inductive Severity
  | success
  | error
  | warning
  | info
deriving DecidableEq

/-- The three application views (`ViewType` of `main-layout.tsx`, as used in
`App.tsx`: `"recording" | "macros" | "settings"`). -/
inductive ViewType
  | recording
  | macros
  | settings
deriving DecidableEq

/-- An engine request issued through `invoke(...)`.  Constructors mirror the
Tauri command strings (`"start_recording"`, `"stop_recording"`,
`"play_macro"`, `"save_macro"`, `"delete_macro"`, `"update_app_settings"`).
`updateAppSettings` carries the payload actually sent by `handleMacroSelect`:
the alwaysOnTop flag plus an optional `lastSelectedMacroId`. -/
inductive Request
  | startRecording (settings : RecordingSettings)
  | stopRecording
  | playMacro (macroData : Macro)
  | saveMacro (macroData : Macro)
  | deleteMacro (macroId : String)
  | updateAppSettings (alwaysOnTop : Bool) (lastSelectedMacroId : Option String)
deriving DecidableEq

/-- The React state of `App` (`App.tsx` lines 23-50) that the claims are
about.  The listener shadow refs (`isRecordingRef` etc.) are kept
immediately synchronized with this state by the effect at lines 64-78, so a
single record faithfully models both. -/
structure SessionState where
  currentView : ViewType
  macros : List Macro
  isRecording : Bool
  isPlaying : Bool
  recordedEvents : List MacroEvent
  isAlwaysOnTop : Bool
  isMiniMode : Bool
  selectedPlaybackMacroId : String
  recordingSettings : RecordingSettings
deriving DecidableEq

/-- The outcome of running one handler: the updated React state, the engine
requests it issued, and the user-visible notifications it produced. -/
structure StepOut where
  state : SessionState
  requests : List Request
  notices : List (Severity × String)
deriving DecidableEq

/-! ## Notification router — `App.tsx`, `handleNotify` (lines 81-96) -/

/-- The toast channel chosen for a severity in the non-mini branch of
`handleNotify`: `toast.success` / `toast.error` / `toast.warning`, with
`toast.info` as the `else` default. -/
def toastChannel : Severity → Severity
  | Severity.success => Severity.success
  | Severity.error => Severity.error
  | Severity.warning => Severity.warning
  | Severity.info => Severity.info

/-- The per-call effect of `handleNotify`: in mini mode the message is written
to the single banner slot (`setNotificationMsg`) and a clear is scheduled
3000 ms later; otherwise a toast is dispatched on the channel matching the
severity and the banner slot is untouched. -/
structure NotifyEffect where
  bannerSet : Option String
  toast : Option (Severity × String)
deriving DecidableEq

/-- `handleNotify` of `App.tsx` (lines 81-96), as the effect of one call. -/
def handleNotify (isMiniMode : Bool) (message : String) (type : Severity) : NotifyEffect :=
  if isMiniMode then
    { bannerSet := some message, toast := none }
  else
    { bannerSet := none, toast := some (toastChannel type, message) }

/-! ### Timed banner semantics

Each mini-mode `handleNotify` call at time `c` performs `setNotificationMsg
(msg)` at `c` and `setTimeout(() => setNotificationMsg(""), 3000)`, i.e. it
schedules a write of `""` at `c + 3000`.  The source never cancels a pending
timeout.  The banner content at time `t` is therefore determined by the last
write at or before `t`: the latest call's message, unless some call's clear
(its time + 3000) fired after that latest call.  `calls` is the chronologically
ordered list of `(callTime, message)` pairs, with distinct call times. -/

/-- The latest banner call at or before time `t` (calls listed in
chronological order). -/
def lastCallLE (calls : List (ℕ × String)) (t : ℕ) : Option (ℕ × String) :=
  calls.foldl (fun acc c => if c.1 ≤ t then some c else acc) none

/-- Banner content at time `t` under the source's no-cancel `setTimeout`
semantics: the latest call's message, overwritten by `""` as soon as any
call's 3000 ms clear fires strictly after that latest call. -/
def bannerAt (calls : List (ℕ × String)) (t : ℕ) : String :=
  match lastCallLE calls t with
  | none => ""
  | some c =>
    if ∃ c2 ∈ calls, c2.1 + 3000 ≤ t ∧ c.1 < c2.1 + 3000 then "" else c.2

/-! ## Session handlers — `App.tsx` -/

/-- The default playback settings attached to a freshly recorded macro
(`App.tsx` lines 142-146). -/
def defaultPlaybackSettings : PlaybackSettings :=
  { speed := 1, repeatMode := RepeatMode.once, repeatCount := some 1 }

/-- The recording settings `App` starts with (`App.tsx` lines 37-43). -/
def defaultRecordingSettings : RecordingSettings :=
  { recordMouseMovement := true, recordMouseClicks := true, recordKeyboard := true }

/-- The macro synthesized on a successful recording stop (`App.tsx` lines
136-149 and 447-460): id is `Date.now().toString()`, name is
`Macro ${macros.length + 1}`, empty description, current recording settings,
default playback settings, both date stamps `now`. -/
def mkRecordedMacro (now : ℕ) (librarySize : ℕ) (events : List MacroEvent)
    (recordingSettings : RecordingSettings) : Macro :=
  { id := Nat.repr now
    name := "Macro " ++ Nat.repr (librarySize + 1)
    description := ""
    events := events
    recordingSettings := recordingSettings
    playbackSettings := defaultPlaybackSettings
    createdAt := now
    updatedAt := now }

/-- The temporary preview macro built by `handlePlayRecordedEvents`
(`App.tsx` lines 174-183). -/
def tempMacro (events : List MacroEvent) (recordingSettings : RecordingSettings)
    (playbackSettings : PlaybackSettings) (now : ℕ) : Macro :=
  { id := "temp"
    name := "Preview"
    description := "Preview playback"
    events := events
    recordingSettings := recordingSettings
    playbackSettings := playbackSettings
    createdAt := now
    updatedAt := now }

/-- `handleMacroSelect` of `App.tsx` (lines 285-298): sets the selection and
persists it through `update_app_settings` (merging the current alwaysOnTop
flag).  A failure of the request is only logged, so the state effect is the
same either way. -/
def handleMacroSelect (s : SessionState) (id : String) : StepOut :=
  { state := { s with selectedPlaybackMacroId := id }
    requests := [Request.updateAppSettings s.isAlwaysOnTop (some id)]
    notices := [] }

/-- `handleStartRecording` of `App.tsx` (lines 107-118): issues
`start_recording` and, on success, sets `isRecording := true` and clears the
event buffer.  Note there is no check of `isPlaying` (or of the current view)
anywhere in this handler. -/
def handleStartRecording (s : SessionState) (engineOk : Bool) : StepOut :=
  if engineOk then
    { state := { s with isRecording := true, recordedEvents := [] }
      requests := [Request.startRecording s.recordingSettings]
      notices := [(Severity.success, "Recording started")] }
  else
    { state := s
      requests := [Request.startRecording s.recordingSettings]
      notices := [(Severity.error, "Failed to start recording")] }

/-- `handleStopRecording` of `App.tsx` (lines 120-161): issues
`stop_recording`; on success stores the events and, only when the sequence is
non-empty, synthesizes a macro, appends it, persists it through `save_macro`
and auto-selects it via `handleMacroSelect`; on engine failure it still sets
`isRecording := false` and surfaces an error. -/
def handleStopRecording (s : SessionState) (res : Except String (List MacroEvent))
    (now : ℕ) : StepOut :=
  match res with
  | Except.ok events =>
    let s1 := { s with isRecording := false, recordedEvents := events }
    if events.isEmpty then
      { state := s1
        requests := [Request.stopRecording]
        notices := [(Severity.success, "Recording stopped")] }
    else
      let newMacro := mkRecordedMacro now s.macros.length events s.recordingSettings
      let s2 := { s1 with macros := s.macros ++ [newMacro] }
      let sel := handleMacroSelect s2 newMacro.id
      { state := sel.state
        requests := [Request.stopRecording, Request.saveMacro newMacro] ++ sel.requests
        notices := [(Severity.success, "Recording stopped")] }
  | Except.error err =>
    { state := { s with isRecording := false }
      requests := [Request.stopRecording]
      notices := [(Severity.error, "Failed to stop recording: " ++ err)] }

/-- The part of `handlePlayRecordedEvents` (`App.tsx` lines 163-186) up to and
including the `play_macro` request: the fail-fast empty check, then
`setIsPlaying(true)` and the request carrying the preview macro. -/
def handlePlayRecordedEventsBegin (s : SessionState) (events : List MacroEvent)
    (playbackSettings : PlaybackSettings) (now : ℕ) : StepOut :=
  if events.isEmpty then
    { state := s
      requests := []
      notices := [(Severity.error, "No events to play")] }
  else
    { state := { s with isPlaying := true }
      requests := [Request.playMacro (tempMacro events s.recordingSettings playbackSettings now)]
      notices := [] }

/-- The continuation of `handlePlayRecordedEvents` (`App.tsx` lines 186-192):
`catch` surfaces an error, and the `finally` block resets
`isPlaying := false` unconditionally. -/
def handlePlayRecordedEventsEnd (s : SessionState) (result : Except String Unit) : StepOut :=
  { state := { s with isPlaying := false }
    requests := []
    notices :=
      match result with
      | Except.ok _ => []
      | Except.error err => [(Severity.error, "Failed to play: " ++ err)] }

/-- The part of `handlePlayMacro` (`App.tsx` lines 200-205) up to and
including the `play_macro` request: `setIsPlaying(true)` and the request.
Note there is no emptiness check on `macro.events`. -/
def handlePlayMacroBegin (s : SessionState) (macroData : Macro) : StepOut :=
  { state := { s with isPlaying := true }
    requests := [Request.playMacro macroData]
    notices := [(Severity.info, "Playing macro: " ++ macroData.name)] }

/-- The continuation of `handlePlayMacro` (`App.tsx` lines 206-213): success
or error notification, then the `finally` block resets `isPlaying := false`
unconditionally. -/
def handlePlayMacroEnd (s : SessionState) (result : Except String Unit) : StepOut :=
  { state := { s with isPlaying := false }
    requests := []
    notices :=
      match result with
      | Except.ok _ => [(Severity.success, "Playback completed")]
      | Except.error err => [(Severity.error, "Failed to play macro: " ++ err)] }

/-- `handleStopPlayback` of `App.tsx` (lines 195-198): purely local. -/
def handleStopPlayback (s : SessionState) : StepOut :=
  { state := { s with isPlaying := false }, requests := [], notices := [] }

/-- The removal filter `macros.filter((m) => m.id !== macroId)` used twice in
`handleDeleteMacro`. -/
def filterOutId (macros : List Macro) (macroId : String) : List Macro :=
  macros.filter (fun m => m.id ≠ macroId)

/-- `handleDeleteMacro` of `App.tsx` (lines 220-240): removes the macro from
the in-memory library optimistically (before the await), requests engine-side
deletion and, when the engine call succeeds and the deleted macro was
selected, reselects the first remaining macro (original list order) or the
empty selection through `handleMacroSelect`.  On engine failure the optimistic
removal has already happened and only an error is surfaced. -/
def handleDeleteMacro (s : SessionState) (macroId : String) (engineOk : Bool) : StepOut :=
  let s1 := { s with macros := filterOutId s.macros macroId }
  if engineOk then
    if s.selectedPlaybackMacroId = macroId then
      match filterOutId s.macros macroId with
      | m0 :: _ =>
        let sel := handleMacroSelect s1 m0.id
        { state := sel.state
          requests := [Request.deleteMacro macroId] ++ sel.requests
          notices := [(Severity.success, "Macro deleted")] }
      | [] =>
        let sel := handleMacroSelect s1 ""
        { state := sel.state
          requests := [Request.deleteMacro macroId] ++ sel.requests
          notices := [(Severity.success, "Macro deleted")] }
    else
      { state := s1
        requests := [Request.deleteMacro macroId]
        notices := [(Severity.success, "Macro deleted")] }
  else
    { state := s1
      requests := [Request.deleteMacro macroId]
      notices := [(Severity.error, "Failed to delete macro")] }

/-! ## Engine-originated hotkey signals — `App.tsx`, `setupListeners`
(lines 382-555)

Each listener first returns if `currentViewRef.current === "settings"`, then
applies its own gate over the shadow refs.  The engine outcome of the
`invoke` performed inside a listener is passed as an explicit parameter; the
`finally` of a playback started by `hotkey:playback-start` is a separate
`SessionEvent.playbackDone` step, since the listener returns before the
playback resolves. -/

/-- One of the four engine-originated hotkey signals, carrying the outcome of
the engine request the listener performs (and `Date.now()` where the listener
reads it). -/
inductive HotkeySignal
  | recordStart (engineOk : Bool)
  | recordStop (res : Except String (List MacroEvent)) (now : ℕ)
  | playbackStart (now : ℕ)
  | playbackStop
deriving DecidableEq

/-- The effect of one hotkey signal on the session, from `setupListeners` of
`App.tsx`: the settings-view guard, then the per-signal state gate, then the
listener body. -/
def hkStep (s : SessionState) (sig : HotkeySignal) : StepOut :=
  match sig with
  | HotkeySignal.recordStart engineOk =>
    if s.currentView = ViewType.settings then { state := s, requests := [], notices := [] }
    else if !s.isRecording && !s.isPlaying then
      if engineOk then
        { state := { s with isRecording := true, recordedEvents := [] }
          requests := [Request.startRecording s.recordingSettings]
          notices := [(Severity.success, "Recording started via hotkey")] }
      else
        { state := s
          requests := [Request.startRecording s.recordingSettings]
          notices := [(Severity.error, "Failed to start recording")] }
    else { state := s, requests := [], notices := [] }
  | HotkeySignal.recordStop res now =>
    if s.currentView = ViewType.settings then { state := s, requests := [], notices := [] }
    else if s.isRecording then
      match res with
      | Except.ok events =>
        let s1 := { s with isRecording := false, recordedEvents := events }
        if events.isEmpty then
          { state := s1
            requests := [Request.stopRecording]
            notices := [(Severity.success, "Recording stopped")] }
        else
          let newMacro := mkRecordedMacro now s.macros.length events s.recordingSettings
          { state := { s1 with macros := s.macros ++ [newMacro] }
            requests := [Request.stopRecording, Request.saveMacro newMacro]
            notices := [(Severity.success, "Recording stopped")] }
      | Except.error err =>
        { state := { s with isRecording := false }
          requests := [Request.stopRecording]
          notices := [(Severity.error, "Failed to stop recording: " ++ err)] }
    else { state := s, requests := [], notices := [] }
  | HotkeySignal.playbackStart now =>
    if s.currentView = ViewType.settings then { state := s, requests := [], notices := [] }
    else if !s.isRecording && !s.isPlaying && !s.recordedEvents.isEmpty then
      { state := { s with isPlaying := true }
        requests :=
          [Request.playMacro
            (tempMacro s.recordedEvents s.recordingSettings defaultPlaybackSettings now)]
        notices := [] }
    else { state := s, requests := [], notices := [] }
  | HotkeySignal.playbackStop =>
    if s.currentView = ViewType.settings then { state := s, requests := [], notices := [] }
    else if s.isPlaying then
      { state := { s with isPlaying := false }, requests := [], notices := [] }
    else { state := s, requests := [], notices := [] }

/-- The mutual-exclusion invariant of the session state. -/
def mutualExclusion (s : SessionState) : Prop :=
  ¬(s.isRecording = true ∧ s.isPlaying = true)

/-! ### Asynchronous hotkey machine

`hkStep` above gives the per-call effect of one listener run to completion; it
is adequate for claims about a single handler's own execution, but it cannot
express interleavings between a listener's synchronous gate check and the
deferred continuation of the `invoke` it started.  In `App.tsx` the
record-start listener checks its gate at signal delivery but commits
`setIsRecording(true)` only when the `invoke("start_recording")` promise
resolves (lines 388-392), and likewise record-stop commits at resolution
(lines 439-487); the playback-start listener, by contrast, calls
`setIsPlaying(true)` synchronously before its `invoke` (line 505), and its
`finally` runs at resolution.  The machine below splits every listener at its
`await` point: a `Fire` event is the synchronous part run at signal delivery
(guards plus any synchronous `set...`), and a `Resolve` event is the deferred
continuation of one pending engine request.  Pending-request counters keep
resolve events faithful: a resolve fires only when a matching request is in
flight. -/

/-- The machine state: the React session state plus the number of in-flight
`start_recording`, `stop_recording` and `play_macro` requests whose
continuations have not yet run. -/
structure AsyncState where
  s : SessionState
  pendingStart : ℕ
  pendingStop : ℕ
  pendingPlay : ℕ
deriving DecidableEq

/-- Outcome of one asynchronous micro-step. -/
structure AsyncOut where
  state : AsyncState
  requests : List Request
  notices : List (Severity × String)
deriving DecidableEq

/-- An asynchronous hotkey-machine event: the synchronous delivery of one of
the four hotkey signals, or the resolution of one pending engine request
(carrying the engine's outcome, and `Date.now()` where the continuation reads
it). -/
inductive AsyncEvent
  | recordStartFire
  | recordStartResolve (engineOk : Bool)
  | recordStopFire
  | recordStopResolve (res : Except String (List MacroEvent)) (now : ℕ)
  | playbackStartFire (now : ℕ)
  | playbackResolve (result : Except String Unit)
  | playbackStopFire
deriving DecidableEq

/-- One micro-step of the asynchronous hotkey machine, from `setupListeners`
of `App.tsx` (lines 382-555): fire events run the settings-view guard and the
per-signal gate over the shadow refs and issue the engine request; resolve
events run the corresponding `then`/`catch`/`finally` continuation of one
pending request. -/
def asyncStep (a : AsyncState) (e : AsyncEvent) : AsyncOut :=
  match e with
  | AsyncEvent.recordStartFire =>
    if a.s.currentView = ViewType.settings then { state := a, requests := [], notices := [] }
    else if !a.s.isRecording && !a.s.isPlaying then
      { state := { a with pendingStart := a.pendingStart + 1 }
        requests := [Request.startRecording a.s.recordingSettings]
        notices := [] }
    else { state := a, requests := [], notices := [] }
  | AsyncEvent.recordStartResolve engineOk =>
    match a.pendingStart with
    | 0 => { state := a, requests := [], notices := [] }
    | n + 1 =>
      if engineOk then
        { state :=
            { a with
              s := { a.s with isRecording := true, recordedEvents := [] }
              pendingStart := n }
          requests := []
          notices := [(Severity.success, "Recording started via hotkey")] }
      else
        { state := { a with pendingStart := n }
          requests := []
          notices := [(Severity.error, "Failed to start recording")] }
  | AsyncEvent.recordStopFire =>
    if a.s.currentView = ViewType.settings then { state := a, requests := [], notices := [] }
    else if a.s.isRecording then
      { state := { a with pendingStop := a.pendingStop + 1 }
        requests := [Request.stopRecording]
        notices := [] }
    else { state := a, requests := [], notices := [] }
  | AsyncEvent.recordStopResolve res now =>
    match a.pendingStop with
    | 0 => { state := a, requests := [], notices := [] }
    | n + 1 =>
      match res with
      | Except.ok events =>
        let s1 := { a.s with isRecording := false, recordedEvents := events }
        if events.isEmpty then
          { state := { a with s := s1, pendingStop := n }
            requests := []
            notices := [(Severity.success, "Recording stopped")] }
        else
          let newMacro := mkRecordedMacro now a.s.macros.length events a.s.recordingSettings
          { state := { a with s := { s1 with macros := a.s.macros ++ [newMacro] }, pendingStop := n }
            requests := [Request.saveMacro newMacro]
            notices := [(Severity.success, "Recording stopped")] }
      | Except.error err =>
        { state := { a with s := { a.s with isRecording := false }, pendingStop := n }
          requests := []
          notices := [(Severity.error, "Failed to stop recording: " ++ err)] }
  | AsyncEvent.playbackStartFire now =>
    if a.s.currentView = ViewType.settings then { state := a, requests := [], notices := [] }
    else if !a.s.isRecording && !a.s.isPlaying && !a.s.recordedEvents.isEmpty then
      { state :=
          { a with s := { a.s with isPlaying := true }, pendingPlay := a.pendingPlay + 1 }
        requests :=
          [Request.playMacro
            (tempMacro a.s.recordedEvents a.s.recordingSettings defaultPlaybackSettings now)]
        notices := [] }
    else { state := a, requests := [], notices := [] }
  | AsyncEvent.playbackResolve result =>
    match a.pendingPlay with
    | 0 => { state := a, requests := [], notices := [] }
    | n + 1 =>
      { state := { a with s := { a.s with isPlaying := false }, pendingPlay := n }
        requests := []
        notices :=
          match result with
          | Except.ok _ => []
          | Except.error err => [(Severity.error, "Failed to play: " ++ err)] }
  | AsyncEvent.playbackStopFire =>
    if a.s.currentView = ViewType.settings then { state := a, requests := [], notices := [] }
    else if a.s.isPlaying then
      { state := { a with s := { a.s with isPlaying := false } }, requests := [], notices := [] }
    else { state := a, requests := [], notices := [] }

/-- The machine state at process start: no request in flight. -/
def asyncInit (s : SessionState) : AsyncState :=
  { s := s, pendingStart := 0, pendingStop := 0, pendingPlay := 0 }

/-- Run a sequence of asynchronous micro-steps. -/
def runAsync (a : AsyncState) (evs : List AsyncEvent) : AsyncState :=
  evs.foldl (fun x e => (asyncStep x e).state) a

/-- A serialized trace element: every record-start signal is processed
together with the resolution of the request it issued (no other event is
delivered in the gate-to-commit window); all other events, including the
freely floating stop and playback resolutions, are unrestricted. -/
inductive SerialEvent
  | recordStartAtomic (engineOk : Bool)
  | recordStopFire
  | recordStopResolve (res : Except String (List MacroEvent)) (now : ℕ)
  | playbackStartFire (now : ℕ)
  | playbackResolve (result : Except String Unit)
  | playbackStopFire
deriving DecidableEq

/-- The micro-step sequence of one serialized trace element. -/
def serialize : SerialEvent → List AsyncEvent
  | SerialEvent.recordStartAtomic engineOk =>
    [AsyncEvent.recordStartFire, AsyncEvent.recordStartResolve engineOk]
  | SerialEvent.recordStopFire => [AsyncEvent.recordStopFire]
  | SerialEvent.recordStopResolve res now => [AsyncEvent.recordStopResolve res now]
  | SerialEvent.playbackStartFire now => [AsyncEvent.playbackStartFire now]
  | SerialEvent.playbackResolve result => [AsyncEvent.playbackResolve result]
  | SerialEvent.playbackStopFire => [AsyncEvent.playbackStopFire]

/-- Run a serialized trace on the asynchronous machine. -/
def runSerial (a : AsyncState) : List SerialEvent → AsyncState
  | [] => a
  | e :: rest => runSerial (runAsync a (serialize e)) rest

/-- The session state after a serialized trace from process start. -/
def runAsyncSerial (s : SessionState) (evs : List SerialEvent) : SessionState :=
  (runSerial (asyncInit s) evs).s

/-! ## Window mode controller — `use-window-manager.ts` -/

/-- A host resize signal: its arrival time (ms) and the inner size it
reports. -/
structure ResizeSignal where
  t : ℕ
  width : ℕ
  height : ℕ
deriving DecidableEq

/-- Debounce semantics of `handleResize` (`use-window-manager.ts` lines
74-102): every signal clears the pending 200 ms timer and starts a new one,
so a signal's timer fires iff no further signal arrives strictly within the
next 200 ms.  Returns the signals whose timers fire, in order. -/
def debounceFires : List ResizeSignal → List ResizeSignal
  | [] => []
  | [a] => [a]
  | a :: b :: rest =>
    (if a.t + 200 ≤ b.t then [a] else []) ++ debounceFires (b :: rest)

/-- The snapping logic run when a debounce timer fires (`use-window-manager.ts`
lines 88-97), reading the current mode from the immediately-updated
`isMiniModeRef`: from normal mode, width < 500 or height < 500 snaps down to
mini with a 355x140 `setSize` command; from mini mode, width > 360 or
height > 150 snaps up to medium with a 1000x700 command.  Returns the new mode
and the `setSize` commands issued. -/
def evalResize (currentMini : Bool) (w h : ℕ) : Bool × List (ℕ × ℕ) :=
  if currentMini = false ∧ (w < 500 ∨ h < 500) then
    (true, [(355, 140)])
  else if currentMini = true ∧ (360 < w ∨ 150 < h) then
    (false, [(1000, 700)])
  else
    (currentMini, [])

/-- Run the snapping logic over the fired signals in order, threading the
mode and collecting every `setSize` command. -/
def runFires (mini : Bool) : List ResizeSignal → Bool × List (ℕ × ℕ)
  | [] => (mini, [])
  | sig :: rest =>
    let out := evalResize mini sig.width sig.height
    let next := runFires out.1 rest
    (next.1, out.2 ++ next.2)

/-! ## Sample data for concrete instantiations -/

/-- A sample recorded click event. -/
def sampleEvent : MacroEvent :=
  { type := EventType.mouse_click, timestamp := 100, x := some 10, y := some 20
    button := some MouseButton.left }

/-- A sample non-empty library macro. -/
def sampleMacro : Macro :=
  { id := "1700000000000"
    name := "Macro 1"
    description := ""
    events := [sampleEvent]
    recordingSettings := defaultRecordingSettings
    playbackSettings := defaultPlaybackSettings
    createdAt := 0
    updatedAt := 0 }

/-- A macro whose event sequence is empty (representable e.g. through
`import_macro`, which is not validated beyond a non-null check). -/
def emptyMacro : Macro :=
  { id := "empty"
    name := "Empty"
    description := ""
    events := []
    recordingSettings := defaultRecordingSettings
    playbackSettings := defaultPlaybackSettings
    createdAt := 0
    updatedAt := 0 }

/-- An idle state in the recording view with one library macro selected. -/
def initialState : SessionState :=
  { currentView := ViewType.recording
    macros := [sampleMacro]
    isRecording := false
    isPlaying := false
    recordedEvents := []
    isAlwaysOnTop := false
    isMiniMode := false
    selectedPlaybackMacroId := "1700000000000"
    recordingSettings := defaultRecordingSettings }

/-! ## Theorems -/

/-- Playback settings with an explicit 1000 ms interval, exposing that the
source's `totalDuration` ignores the `interval` field. -/
def psInterval1000 : PlaybackSettings :=
  { speed := 1, repeatMode := RepeatMode.count, repeatCount := some 2, interval := some 1000 }

/-- Claim C2 counterexample: with last timestamp 2000 ms, speed 1, repeat
count 2 and interval 1000 ms, the claim's formula `base*N + interval*(N-1)`
demands 5000 ms, but the source's `totalDuration` hard-codes the 500 ms delay
and returns 4500 ms — the `interval` setting is ignored, not defaulted. -/
theorem totalDuration_ignores_interval_cex :
    totalDuration [ev2000] psInterval1000 = 4500 ∧
    totalDurationClaimed [ev2000] psInterval1000 = 5000 ∧
    totalDuration [ev2000] psInterval1000 ≠ totalDurationClaimed [ev2000] psInterval1000 := by
  have h1 : totalDuration [ev2000] psInterval1000 = 4500 := by
    unfold totalDuration psInterval1000 ev2000
    norm_num [jsOr1]
  have h2 : totalDurationClaimed [ev2000] psInterval1000 = 5000 := by
    unfold totalDurationClaimed psInterval1000 ev2000
    norm_num [jsOr1]
  refine ⟨h1, h2, ?_⟩
  rw [h1, h2]
  norm_num

/-- Claim C2 (amended): the duration estimator is a pure function returning 0
on the empty sequence; otherwise, with `base = lastEvent.timestamp / speed`,
it returns `base*N + 500*(N-1)` in count mode (N = `repeatCount || 1`; the
inter-repetition delay is the fixed constant 500 ms, the settings' `interval`
field being ignored) and `base` otherwise; the claim's two concrete examples
(1000 ms and 4000 ms) hold. -/
theorem totalDuration_characterization (events : List MacroEvent) (lastEvent : MacroEvent)
    (ps : PlaybackSettings) (h : events.getLast? = some lastEvent) :
    totalDuration [] ps = 0 ∧
    (ps.repeatMode = RepeatMode.count →
      totalDuration events ps =
        lastEvent.timestamp / ps.speed * (jsOr1 ps.repeatCount : ℚ) +
          ((jsOr1 ps.repeatCount : ℚ) - 1) * 500) ∧
    (ps.repeatMode ≠ RepeatMode.count →
      totalDuration events ps = lastEvent.timestamp / ps.speed) ∧
    totalDuration [ev2000] { speed := 2, repeatMode := RepeatMode.once } = 1000 ∧
    totalDuration [ev2000]
      { speed := 2, repeatMode := RepeatMode.count, repeatCount := some 3,
        interval := some 500 } = 4000 := by
  refine ⟨rfl, ?_, ?_, ?_, ?_⟩
  · intro hm
    unfold totalDuration
    rw [h]
    simp [hm]
  · intro hm
    unfold totalDuration
    rw [h]
    simp [hm]
  · unfold totalDuration ev2000
    simp
    norm_num
  · unfold totalDuration ev2000
    simp [jsOr1]
    norm_num

/-- Witness for `totalDuration_characterization` at a concrete input. -/
theorem totalDuration_characterization_witness :
    totalDuration [] psInterval1000 = 0 ∧
    (psInterval1000.repeatMode = RepeatMode.count →
      totalDuration [ev2000] psInterval1000 =
        ev2000.timestamp / psInterval1000.speed * (jsOr1 psInterval1000.repeatCount : ℚ) +
          ((jsOr1 psInterval1000.repeatCount : ℚ) - 1) * 500) ∧
    (psInterval1000.repeatMode ≠ RepeatMode.count →
      totalDuration [ev2000] psInterval1000 = ev2000.timestamp / psInterval1000.speed) ∧
    totalDuration [ev2000] { speed := 2, repeatMode := RepeatMode.once } = 1000 ∧
    totalDuration [ev2000]
      { speed := 2, repeatMode := RepeatMode.count, repeatCount := some 3,
        interval := some 500 } = 4000 :=
  totalDuration_characterization [ev2000] ev2000 psInterval1000 rfl

/-- Helper: one serialized trace element preserves mutual exclusion together
with the absence of in-flight start requests.  The record-start element
commits `isRecording := true` immediately after its own gate check, with
nothing delivered in between, so the gate's `!isPlaying` reading still holds
at commit time; every other element either leaves the flags alone, clears
one of them, or sets `isPlaying` under a gate that just observed
`isRecording = false`. -/
theorem serializeStep_mutualExclusion (a : AsyncState) (e : SerialEvent)
    (h : mutualExclusion a.s) (hp : a.pendingStart = 0) :
    mutualExclusion (runAsync a (serialize e)).s ∧
    (runAsync a (serialize e)).pendingStart = 0 := by
  unfold mutualExclusion at h ⊢
  cases e <;> unfold serialize runAsync asyncStep <;> simp only [List.foldl] <;>
    (repeat' split) <;> simp_all

/-- Helper: mutual exclusion holds along every serialized trace. -/
theorem runSerial_mutualExclusion (evs : List SerialEvent) (a : AsyncState)
    (h : mutualExclusion a.s) (hp : a.pendingStart = 0) :
    mutualExclusion (runSerial a evs).s := by
  induction evs generalizing a with
  | nil => exact h
  | cons e rest ih =>
    obtain ⟨h1, h2⟩ := serializeStep_mutualExclusion a e h hp
    exact ih _ h1 h2

/-- A state that is idle except for an in-flight playback. -/
def playingState : SessionState :=
  { initialState with isPlaying := true }

/-- An idle state with a non-empty recorded-event buffer, so the
playback-start hotkey gate can pass. -/
def bufferedState : SessionState :=
  { initialState with recordedEvents := [sampleEvent] }

/-- The hotkey-only interleaving exploiting the gate-to-commit window: a
record-start signal passes its gate and issues its request, a playback-start
signal is delivered before the request resolves (its gate still reads
`isRecording = false`), and then the record-start continuation commits
`isRecording := true`. -/
def interleavedTrace : List AsyncEvent :=
  [AsyncEvent.recordStartFire, AsyncEvent.playbackStartFire 3,
   AsyncEvent.recordStartResolve true]

/-- Claim C1 counterexample: `handleStartRecording` performs no `isPlaying`
check, so invoking it (with engine success) while a macro playback is in
flight is not a rejected no-op — it leaves the session with `isRecording` and
`isPlaying` simultaneously true. -/
theorem startRecording_during_playback_cex :
    mutualExclusion initialState ∧
    (handlePlayMacroBegin initialState sampleMacro).state.isPlaying = true ∧
    (handleStartRecording (handlePlayMacroBegin initialState sampleMacro).state true).state.isRecording
      = true ∧
    (handleStartRecording (handlePlayMacroBegin initialState sampleMacro).state true).state.isPlaying
      = true := by
  refine ⟨?_, rfl, rfl, rfl⟩
  unfold mutualExclusion initialState
  simp

/-- Claim C1 (amended): in the asynchronous hotkey machine, where each
listener's gate is checked at signal delivery and its state commit runs at
engine-promise resolution: (1) mutual exclusion of `isRecording` and
`isPlaying` is preserved by every serialized trace, i.e. every trace in which
a record-start's resolution is processed before the next event is delivered;
(2) a record-start signal delivered while `isPlaying` is true is a rejected
silent no-op (state unchanged, no request, no notification); but (3) the
invariant does not hold of unrestricted traces: a playback-start delivered in
a record-start's gate-to-commit window leaves both flags true through hotkey
signals alone — and the direct `handleStartRecording` handler performs no
`isPlaying` check at all (see the counterexample). -/
theorem hotkey_mutualExclusion_invariant (s : SessionState) (evs : List SerialEvent)
    (h : mutualExclusion s) :
    mutualExclusion (runAsyncSerial s evs) ∧
    (∀ a : AsyncState, a.s.isPlaying = true →
      asyncStep a AsyncEvent.recordStartFire = { state := a, requests := [], notices := [] }) ∧
    ((runAsync (asyncInit bufferedState) interleavedTrace).s.isRecording = true ∧
     (runAsync (asyncInit bufferedState) interleavedTrace).s.isPlaying = true) := by
  refine ⟨runSerial_mutualExclusion evs (asyncInit s) h rfl, ?_, rfl, rfl⟩
  intro a hp
  unfold asyncStep
  by_cases hv : a.s.currentView = ViewType.settings
  · simp [hv]
  · simp [hv, hp]

/-- Witness for `hotkey_mutualExclusion_invariant` at a concrete input. -/
theorem hotkey_mutualExclusion_invariant_witness :
    mutualExclusion (runAsyncSerial playingState [SerialEvent.recordStartAtomic true]) ∧
    (∀ a : AsyncState, a.s.isPlaying = true →
      asyncStep a AsyncEvent.recordStartFire = { state := a, requests := [], notices := [] }) ∧
    ((runAsync (asyncInit bufferedState) interleavedTrace).s.isRecording = true ∧
     (runAsync (asyncInit bufferedState) interleavedTrace).s.isPlaying = true) :=
  hotkey_mutualExclusion_invariant playingState [SerialEvent.recordStartAtomic true]
    (by unfold mutualExclusion playingState initialState; simp)

/-- A state sitting in the settings view. -/
def settingsState : SessionState :=
  { initialState with currentView := ViewType.settings }

/-- Claim C9: every one of the four engine-originated hotkey signals received
while the current view is the settings view is a silent no-op — the state is
unchanged, no engine request is issued and no notification is raised. -/
theorem hotkeys_ignored_in_settings_view (s : SessionState) (sig : HotkeySignal)
    (h : s.currentView = ViewType.settings) :
    hkStep s sig = { state := s, requests := [], notices := [] } := by
  cases sig <;> simp [hkStep, h]

/-- Witness for `hotkeys_ignored_in_settings_view` at a concrete input. -/
theorem hotkeys_ignored_in_settings_view_witness :
    hkStep settingsState (HotkeySignal.recordStop (Except.ok [sampleEvent]) 42) =
      { state := settingsState, requests := [], notices := [] } :=
  hotkeys_ignored_in_settings_view settingsState
    (HotkeySignal.recordStop (Except.ok [sampleEvent]) 42) rfl

/-- Claim C3 counterexample: the macro playback path has no emptiness check —
playing a macro whose event sequence is empty (representable via import,
which is not validated) sets `isPlaying := true` and issues the play request,
contradicting "if the event sequence is empty ... isPlaying is never set
true". -/
theorem playMacro_empty_sets_isPlaying_cex :
    emptyMacro.events = [] ∧
    (handlePlayMacroBegin initialState emptyMacro).state.isPlaying = true ∧
    (handlePlayMacroBegin initialState emptyMacro).requests =
      [Request.playMacro emptyMacro] :=
  ⟨rfl, rfl, rfl⟩

/-- Claim C3 (amended): the explicit-event-list playback fails fast on an
empty sequence with an error notification, leaving the state untouched and
issuing no request; on a non-empty sequence it sets `isPlaying := true`
before issuing the play request; the macro playback path performs no
emptiness check and sets `isPlaying := true` unconditionally; and in both
paths the completion step resets `isPlaying := false` unconditionally,
whether the request succeeded or errored. -/
theorem playback_isPlaying_lifecycle (s : SessionState) (events : List MacroEvent)
    (ps : PlaybackSettings) (now : ℕ) (m : Macro) (result : Except String Unit) :
    (events = [] →
      handlePlayRecordedEventsBegin s events ps now =
        { state := s, requests := [], notices := [(Severity.error, "No events to play")] }) ∧
    (events ≠ [] →
      (handlePlayRecordedEventsBegin s events ps now).state.isPlaying = true ∧
      (handlePlayRecordedEventsBegin s events ps now).requests =
        [Request.playMacro (tempMacro events s.recordingSettings ps now)]) ∧
    (handlePlayMacroBegin s m).state.isPlaying = true ∧
    (handlePlayRecordedEventsEnd s result).state.isPlaying = false ∧
    (handlePlayMacroEnd s result).state.isPlaying = false := by
  refine ⟨?_, ?_, rfl, rfl, rfl⟩
  · intro he
    subst he
    rfl
  · intro he
    have hne : events.isEmpty = false := by
      cases events with
      | nil => exact absurd rfl he
      | cons a as => rfl
    unfold handlePlayRecordedEventsBegin
    rw [hne]
    exact ⟨rfl, rfl⟩

/-- Witness for `playback_isPlaying_lifecycle` at a concrete input. -/
theorem playback_isPlaying_lifecycle_witness :
    (([sampleEvent] : List MacroEvent) = [] →
      handlePlayRecordedEventsBegin initialState [sampleEvent] defaultPlaybackSettings 7 =
        { state := initialState, requests := [],
          notices := [(Severity.error, "No events to play")] }) ∧
    (([sampleEvent] : List MacroEvent) ≠ [] →
      (handlePlayRecordedEventsBegin initialState [sampleEvent] defaultPlaybackSettings 7).state.isPlaying
        = true ∧
      (handlePlayRecordedEventsBegin initialState [sampleEvent] defaultPlaybackSettings 7).requests =
        [Request.playMacro
          (tempMacro [sampleEvent] initialState.recordingSettings defaultPlaybackSettings 7)]) ∧
    (handlePlayMacroBegin initialState emptyMacro).state.isPlaying = true ∧
    (handlePlayRecordedEventsEnd initialState (Except.error "boom")).state.isPlaying = false ∧
    (handlePlayMacroEnd initialState (Except.error "boom")).state.isPlaying = false :=
  playback_isPlaying_lifecycle initialState [sampleEvent] defaultPlaybackSettings 7 emptyMacro
    (Except.error "boom")

/-- A state in which a recording is in progress. -/
def recordingState : SessionState :=
  { initialState with isRecording := true }

/-- Claim C4: when the engine's stop-recording request fails, the local state
still transitions to `isRecording = false`, the failure is surfaced as an
error notification, and no macro is created and no save request is issued —
on the direct handler, and likewise on the hotkey path when its gate is
passed. -/
theorem stopRecording_engine_failure (s : SessionState) (err : String) (now : ℕ) :
    (handleStopRecording s (Except.error err) now).state.isRecording = false ∧
    (handleStopRecording s (Except.error err) now).state.macros = s.macros ∧
    (∀ m : Macro,
      Request.saveMacro m ∉ (handleStopRecording s (Except.error err) now).requests) ∧
    (handleStopRecording s (Except.error err) now).notices =
      [(Severity.error, "Failed to stop recording: " ++ err)] ∧
    (s.currentView ≠ ViewType.settings → s.isRecording = true →
      (hkStep s (HotkeySignal.recordStop (Except.error err) now)).state.isRecording = false ∧
      (hkStep s (HotkeySignal.recordStop (Except.error err) now)).state.macros = s.macros ∧
      ∀ m : Macro,
        Request.saveMacro m ∉ (hkStep s (HotkeySignal.recordStop (Except.error err) now)).requests) := by
  refine ⟨rfl, rfl, ?_, rfl, ?_⟩
  · intro m hm
    simp [handleStopRecording] at hm
  · intro hv hr
    refine ⟨?_, ?_, ?_⟩
    · simp [hkStep, hv, hr]
    · simp [hkStep, hv, hr]
    · intro m hm
      simp [hkStep, hv, hr] at hm

/-- Witness for `stopRecording_engine_failure` at a concrete input. -/
theorem stopRecording_engine_failure_witness :
    (handleStopRecording recordingState (Except.error "ipc down") 9).state.isRecording = false ∧
    (handleStopRecording recordingState (Except.error "ipc down") 9).state.macros =
      recordingState.macros ∧
    (∀ m : Macro,
      Request.saveMacro m ∉ (handleStopRecording recordingState (Except.error "ipc down") 9).requests) ∧
    (handleStopRecording recordingState (Except.error "ipc down") 9).notices =
      [(Severity.error, "Failed to stop recording: " ++ "ipc down")] ∧
    (recordingState.currentView ≠ ViewType.settings → recordingState.isRecording = true →
      (hkStep recordingState (HotkeySignal.recordStop (Except.error "ipc down") 9)).state.isRecording
        = false ∧
      (hkStep recordingState (HotkeySignal.recordStop (Except.error "ipc down") 9)).state.macros =
        recordingState.macros ∧
      ∀ m : Macro,
        Request.saveMacro m ∉
          (hkStep recordingState (HotkeySignal.recordStop (Except.error "ipc down") 9)).requests) :=
  stopRecording_engine_failure recordingState "ipc down" 9

/-- Claim C5: when the engine returns an empty event sequence on recording
stop, the manager sets `isRecording := false` and stores the empty sequence
but creates no macro, issues no save request and changes no selection;
when the returned sequence is non-empty, a macro named `Macro N`
(N = library size + 1) is appended and persisted. -/
theorem stopRecording_empty_no_macro (s : SessionState) (events : List MacroEvent) (now : ℕ) :
    (events = [] →
      (handleStopRecording s (Except.ok events) now).state.isRecording = false ∧
      (handleStopRecording s (Except.ok events) now).state.recordedEvents = [] ∧
      (handleStopRecording s (Except.ok events) now).state.macros = s.macros ∧
      (handleStopRecording s (Except.ok events) now).state.selectedPlaybackMacroId =
        s.selectedPlaybackMacroId ∧
      (∀ m : Macro,
        Request.saveMacro m ∉ (handleStopRecording s (Except.ok events) now).requests) ∧
      (∀ (b : Bool) (oid : Option String),
        Request.updateAppSettings b oid ∉ (handleStopRecording s (Except.ok events) now).requests)) ∧
    (events ≠ [] →
      (handleStopRecording s (Except.ok events) now).state.macros =
        s.macros ++ [mkRecordedMacro now s.macros.length events s.recordingSettings] ∧
      (mkRecordedMacro now s.macros.length events s.recordingSettings).name =
        "Macro " ++ Nat.repr (s.macros.length + 1) ∧
      Request.saveMacro (mkRecordedMacro now s.macros.length events s.recordingSettings) ∈
        (handleStopRecording s (Except.ok events) now).requests) := by
  constructor
  · intro he
    subst he
    refine ⟨rfl, rfl, rfl, rfl, ?_, ?_⟩
    · intro m hm
      simp [handleStopRecording] at hm
    · intro b oid hm
      simp [handleStopRecording] at hm
  · intro he
    have hne : events.isEmpty = false := by
      cases events with
      | nil => exact absurd rfl he
      | cons a as => rfl
    simp [handleStopRecording, hne, handleMacroSelect, mkRecordedMacro]

/-- Witness for `stopRecording_empty_no_macro` at a concrete input. -/
theorem stopRecording_empty_no_macro_witness :
    (([] : List MacroEvent) = [] →
      (handleStopRecording recordingState (Except.ok []) 9).state.isRecording = false ∧
      (handleStopRecording recordingState (Except.ok []) 9).state.recordedEvents = [] ∧
      (handleStopRecording recordingState (Except.ok []) 9).state.macros =
        recordingState.macros ∧
      (handleStopRecording recordingState (Except.ok []) 9).state.selectedPlaybackMacroId =
        recordingState.selectedPlaybackMacroId ∧
      (∀ m : Macro,
        Request.saveMacro m ∉ (handleStopRecording recordingState (Except.ok []) 9).requests) ∧
      (∀ (b : Bool) (oid : Option String),
        Request.updateAppSettings b oid ∉
          (handleStopRecording recordingState (Except.ok []) 9).requests)) ∧
    (([] : List MacroEvent) ≠ [] →
      (handleStopRecording recordingState (Except.ok []) 9).state.macros =
        recordingState.macros ++
          [mkRecordedMacro 9 recordingState.macros.length [] recordingState.recordingSettings] ∧
      (mkRecordedMacro 9 recordingState.macros.length [] recordingState.recordingSettings).name =
        "Macro " ++ Nat.repr (recordingState.macros.length + 1) ∧
      Request.saveMacro
          (mkRecordedMacro 9 recordingState.macros.length [] recordingState.recordingSettings) ∈
        (handleStopRecording recordingState (Except.ok []) 9).requests) :=
  stopRecording_empty_no_macro recordingState [] 9

/-- Claim C6: on `deleteMacro(id)` with engine success, where `id` is the
currently selected macro: the macro is removed from the in-memory library;
if at least one macro remains, the selection becomes the id of the first
remaining macro in original list order and that selection is persisted via an
app-settings update; if none remain, the selection becomes empty. -/
theorem deleteMacro_reselects_first_remaining (s : SessionState) (macroId : String)
    (hsel : s.selectedPlaybackMacroId = macroId) :
    (handleDeleteMacro s macroId true).state.macros = filterOutId s.macros macroId ∧
    (∀ (m0 : Macro) (rest : List Macro),
      filterOutId s.macros macroId = m0 :: rest →
      (handleDeleteMacro s macroId true).state.selectedPlaybackMacroId = m0.id ∧
      Request.updateAppSettings s.isAlwaysOnTop (some m0.id) ∈
        (handleDeleteMacro s macroId true).requests) ∧
    (filterOutId s.macros macroId = [] →
      (handleDeleteMacro s macroId true).state.selectedPlaybackMacroId = "") := by
  refine ⟨?_, ?_, ?_⟩
  · rcases hf : filterOutId s.macros macroId with _ | ⟨m0, rest⟩ <;>
      simp [handleDeleteMacro, hsel, hf, handleMacroSelect]
  · intro m0 rest hf
    simp [handleDeleteMacro, hsel, hf, handleMacroSelect]
  · intro hf
    simp [handleDeleteMacro, hsel, hf, handleMacroSelect]

/-- A second and third sample macro for a three-element library. -/
def sampleMacroB : Macro :=
  { sampleMacro with id := "1700000000001", name := "Macro 2" }

/-- Third sample macro. -/
def sampleMacroC : Macro :=
  { sampleMacro with id := "1700000000002", name := "Macro 3" }

/-- A state whose library holds three macros, the first being selected. -/
def threeMacroState : SessionState :=
  { initialState with macros := [sampleMacro, sampleMacroB, sampleMacroC] }

/-- Witness for `deleteMacro_reselects_first_remaining` at a concrete input:
a library of three macros with the selected one deleted. -/
theorem deleteMacro_reselects_first_remaining_witness :
    (handleDeleteMacro threeMacroState "1700000000000" true).state.macros =
      filterOutId threeMacroState.macros "1700000000000" ∧
    (∀ (m0 : Macro) (rest : List Macro),
      filterOutId threeMacroState.macros "1700000000000" = m0 :: rest →
      (handleDeleteMacro threeMacroState "1700000000000" true).state.selectedPlaybackMacroId =
        m0.id ∧
      Request.updateAppSettings threeMacroState.isAlwaysOnTop (some m0.id) ∈
        (handleDeleteMacro threeMacroState "1700000000000" true).requests) ∧
    (filterOutId threeMacroState.macros "1700000000000" = [] →
      (handleDeleteMacro threeMacroState "1700000000000" true).state.selectedPlaybackMacroId
        = "") :=
  deleteMacro_reselects_first_remaining threeMacroState "1700000000000" rfl

/-- Claim C10: the id of every macro synthesized on recording stop is the
decimal string of the wall-clock millisecond at creation time; the append
performs no id-uniqueness check, so a second stop in the same millisecond
appends a macro with an identical id (the count of library entries carrying
that id simply increases). -/
theorem recordedMacro_id_is_wallclock (s : SessionState) (events : List MacroEvent)
    (now : ℕ) (h : events ≠ []) :
    (mkRecordedMacro now s.macros.length events s.recordingSettings).id = Nat.repr now ∧
    (handleStopRecording s (Except.ok events) now).state.macros =
      s.macros ++ [mkRecordedMacro now s.macros.length events s.recordingSettings] ∧
    ((handleStopRecording s (Except.ok events) now).state.macros.filter
        (fun m => m.id = Nat.repr now)).length =
      (s.macros.filter (fun m => m.id = Nat.repr now)).length + 1 ∧
    (∀ (n1 n2 : ℕ) (evs1 evs2 : List MacroEvent) (r1 r2 : RecordingSettings),
      (mkRecordedMacro now n1 evs1 r1).id = (mkRecordedMacro now n2 evs2 r2).id) := by
  have hne : events.isEmpty = false := by
    cases events with
    | nil => exact absurd rfl h
    | cons a as => rfl
  have hmac : (handleStopRecording s (Except.ok events) now).state.macros =
      s.macros ++ [mkRecordedMacro now s.macros.length events s.recordingSettings] := by
    simp [handleStopRecording, hne, handleMacroSelect]
  refine ⟨rfl, hmac, ?_, fun n1 n2 evs1 evs2 r1 r2 => rfl⟩
  rw [hmac]
  simp [mkRecordedMacro]

/-- Witness for `recordedMacro_id_is_wallclock` at a concrete input. -/
theorem recordedMacro_id_is_wallclock_witness :
    (mkRecordedMacro 1234 recordingState.macros.length [sampleEvent]
        recordingState.recordingSettings).id = Nat.repr 1234 ∧
    (handleStopRecording recordingState (Except.ok [sampleEvent]) 1234).state.macros =
      recordingState.macros ++
        [mkRecordedMacro 1234 recordingState.macros.length [sampleEvent]
          recordingState.recordingSettings] ∧
    ((handleStopRecording recordingState (Except.ok [sampleEvent]) 1234).state.macros.filter
        (fun m => m.id = Nat.repr 1234)).length =
      (recordingState.macros.filter (fun m => m.id = Nat.repr 1234)).length + 1 ∧
    (∀ (n1 n2 : ℕ) (evs1 evs2 : List MacroEvent) (r1 r2 : RecordingSettings),
      (mkRecordedMacro 1234 n1 evs1 r1).id = (mkRecordedMacro 1234 n2 evs2 r2).id) :=
  recordedMacro_id_is_wallclock recordingState [sampleEvent] 1234 (by simp)

/-- Helper: one debounce-timer evaluation issues at most one window-size
command. -/
theorem evalResize_cmds_length (mini : Bool) (w h : ℕ) :
    (evalResize mini w h).2.length ≤ 1 := by
  unfold evalResize
  split_ifs <;> simp

/-- Helper: when every resize signal arrives strictly within 200 ms of its
predecessor, only the last signal's timer survives the debounce. -/
theorem debounceFires_of_chain (l : List ResizeSignal)
    (h : List.Chain' (fun a b => b.t < a.t + 200) l) :
    debounceFires l = l.getLast?.toList := by
  induction l with
  | nil => rfl
  | cons a rest ih =>
    cases rest with
    | nil => rfl
    | cons b rest2 =>
      rw [List.chain'_cons] at h
      unfold debounceFires
      rw [if_neg (by omega)]
      rw [ih h.2]
      simp

/-- Claim C8: a single resize signal reporting 480x600 while in normal mode,
left unchallenged for the 200 ms debounce window, fires exactly once and
produces exactly one snap-to-mini transition with the explicit window-size
command 355x140; and any burst of resize signals each arriving strictly
within 200 ms of the previous one (in particular a burst of 10) collapses to
at most one timer evaluation and hence at most one window-size command. -/
theorem debounced_resize_transitions (t : ℕ) (mini : Bool) (sigs : List ResizeSignal)
    (hchain : List.Chain' (fun a b => b.t < a.t + 200) sigs) (hlen : sigs.length = 10) :
    runFires false (debounceFires [⟨t, 480, 600⟩]) = (true, [(355, 140)]) ∧
    (runFires mini (debounceFires sigs)).2.length ≤ 1 := by
  constructor
  · simp [debounceFires, runFires, evalResize]
  · rw [debounceFires_of_chain sigs hchain]
    cases hl : sigs.getLast? with
    | none => simp [runFires]
    | some sig =>
      simpa [runFires] using evalResize_cmds_length mini sig.width sig.height

/-- Ten resize signals 20 ms apart, all reporting 480x600. -/
def burst10 : List ResizeSignal :=
  [⟨0, 480, 600⟩, ⟨20, 480, 600⟩, ⟨40, 480, 600⟩, ⟨60, 480, 600⟩, ⟨80, 480, 600⟩,
   ⟨100, 480, 600⟩, ⟨120, 480, 600⟩, ⟨140, 480, 600⟩, ⟨160, 480, 600⟩, ⟨180, 480, 600⟩]

/-- Witness for `debounced_resize_transitions` at a concrete input. -/
theorem debounced_resize_transitions_witness :
    runFires false (debounceFires [⟨0, 480, 600⟩]) = (true, [(355, 140)]) ∧
    (runFires false (debounceFires burst10)).2.length ≤ 1 :=
  debounced_resize_transitions 0 false burst10
    (by norm_num [burst10, List.chain'_cons, List.chain'_singleton]) (by decide)

/-- Helper: reduce `bannerAt` once the latest call is known. -/
theorem bannerAt_some (calls : List (ℕ × String)) (t : ℕ) (c : ℕ × String)
    (h : lastCallLE calls t = some c) :
    bannerAt calls t =
      if ∃ c2 ∈ calls, c2.1 + 3000 ≤ t ∧ c.1 < c2.1 + 3000 then "" else c.2 := by
  unfold bannerAt
  rw [h]

/-- Helper: the latest of one banner call at or before `t`. -/
theorem lastCallLE_single (c1 t : ℕ) (m1 : String) (h : c1 ≤ t) :
    lastCallLE [(c1, m1)] t = some (c1, m1) := by
  unfold lastCallLE
  simp [h]

/-- Helper: the latest of two chronological banner calls at or before `t`,
when the second has already happened. -/
theorem lastCallLE_pair (c1 c2 t : ℕ) (m1 m2 : String) (h : c2 ≤ t) :
    lastCallLE [(c1, m1), (c2, m2)] t = some (c2, m2) := by
  unfold lastCallLE
  simp [h]

/-- Claim C7 counterexample: with mini-mode notify calls at 0 ms ("A") and
2000 ms ("B"), the first call's never-cancelled 3000 ms timer clears the
banner at 3000 ms, so the newer message "B" is not visible for a full
3000 ms — the timer is not restarted by the second call. -/
theorem banner_timer_not_restarted_cex :
    bannerAt [(0, "A"), (2000, "B")] 3000 = "" ∧
    bannerAt [(0, "A"), (2000, "B")] 3000 ≠ "B" := by
  constructor <;> decide

/-- Claim C7 (amended): in non-mini mode `notify` dispatches a toast on the
channel matching its severity and leaves the banner slot untouched; in mini
mode the message is stored in the single banner slot with a 3000 ms
auto-clear; a subsequent call before the clear replaces the visible message,
but the earlier call's timer is not cancelled, so the slot is cleared at the
earlier call's expiry (`c1 + 3000`) rather than a full 3000 ms after the
newer call. -/
theorem notify_banner_behavior (message : String) (sev : Severity)
    (c1 c2 t : ℕ) (m1 m2 : String) :
    (handleNotify false message sev =
      { bannerSet := none, toast := some (toastChannel sev, message) } ∧
      toastChannel sev = sev) ∧
    handleNotify true message sev = { bannerSet := some message, toast := none } ∧
    (c1 ≤ t → t < c1 + 3000 → bannerAt [(c1, m1)] t = m1) ∧
    (c1 + 3000 ≤ t → bannerAt [(c1, m1)] t = "") ∧
    (c1 < c2 → c2 ≤ t → t < c1 + 3000 → bannerAt [(c1, m1), (c2, m2)] t = m2) ∧
    (c1 < c2 → c2 < c1 + 3000 → c1 + 3000 ≤ t → bannerAt [(c1, m1), (c2, m2)] t = "") := by
  refine ⟨⟨rfl, by cases sev <;> rfl⟩, rfl, ?_, ?_, ?_, ?_⟩
  · intro h1 h2
    rw [bannerAt_some [(c1, m1)] t (c1, m1) (lastCallLE_single c1 t m1 h1)]
    rw [if_neg]
    rintro ⟨⟨ct, cm⟩, hc, hle, hlt⟩
    simp only [List.mem_singleton, Prod.mk.injEq] at hc
    dsimp only at hle hlt
    omega
  · intro h1
    rw [bannerAt_some [(c1, m1)] t (c1, m1) (lastCallLE_single c1 t m1 (by omega))]
    rw [if_pos]
    exact ⟨(c1, m1), by simp, by dsimp only; omega⟩
  · intro h12 h2t ht
    rw [bannerAt_some [(c1, m1), (c2, m2)] t (c2, m2) (lastCallLE_pair c1 c2 t m1 m2 h2t)]
    rw [if_neg]
    rintro ⟨⟨ct, cm⟩, hc, hle, hlt⟩
    simp only [List.mem_cons, List.not_mem_nil, or_false, Prod.mk.injEq] at hc
    dsimp only at hle hlt
    rcases hc with ⟨hc, -⟩ | ⟨hc, -⟩ <;> omega
  · intro h12 h2c ht
    rw [bannerAt_some [(c1, m1), (c2, m2)] t (c2, m2) (lastCallLE_pair c1 c2 t m1 m2 (by omega))]
    rw [if_pos]
    exact ⟨(c1, m1), by simp, by dsimp only; omega⟩

/-- Witness for `notify_banner_behavior` at a concrete input. -/
theorem notify_banner_behavior_witness :
    (handleNotify false "saved" Severity.warning =
      { bannerSet := none, toast := some (toastChannel Severity.warning, "saved") } ∧
      toastChannel Severity.warning = Severity.warning) ∧
    handleNotify true "saved" Severity.warning =
      { bannerSet := some "saved", toast := none } ∧
    ((0 : ℕ) ≤ 2500 → (2500 : ℕ) < 0 + 3000 → bannerAt [(0, "A")] 2500 = "A") ∧
    ((0 : ℕ) + 3000 ≤ 2500 → bannerAt [(0, "A")] 2500 = "") ∧
    ((0 : ℕ) < 2000 → (2000 : ℕ) ≤ 2500 → (2500 : ℕ) < 0 + 3000 →
      bannerAt [(0, "A"), (2000, "B")] 2500 = "B") ∧
    ((0 : ℕ) < 2000 → (2000 : ℕ) < 0 + 3000 → (0 : ℕ) + 3000 ≤ 2500 →
      bannerAt [(0, "A"), (2000, "B")] 2500 = "") :=
  notify_banner_behavior "saved" Severity.warning 0 2000 2500 "A" "B"

end MacroX
